import Mathlib

/-!
Verification of the catalog index and spatial search engine of the
maplibre-gl-noaa-lidar repository, together with its interaction state
machine, against the natural-language specification of the repository.

The development shallowly embeds the relevant TypeScript code:

* StacSearcher._validateBbox, searchByExtent, rebuildIndex,
  _getFromCache, _saveToCache, clearCache
  (src/lib/stac/StacSearcher.ts);
* NoaaLidarControl.searchByBbox, the startDrawing mouseup handler,
  loadItem, unloadItem (src/lib/core/NoaaLidarControl.ts).

JavaScript numbers are modelled as a sum of the non-finite values and a
rational payload (JSNum); coordinates, point counts and epoch
milliseconds are rationals or integers.  Stateful operations are
modelled by explicit state passing; emitted events are collected in
lists; operations that may reject return Except.
-/

namespace NoaaLidar

/-- A JavaScript number: NaN, +Infinity, -Infinity, or a finite value
(modelled as a rational). -/
inductive JSNum where
  | nan
  | inf
  | negInf
  | num (q : ℚ)
deriving DecidableEq, Repr

/-- Number.isFinite. -/
def JSNum.isFinite : JSNum → Bool
  | .num _ => true
  | _ => false

/-- A geographic bounding box [west, south, east, north] with finite
coordinates. -/
structure Bbox where
  west : ℚ
  south : ℚ
  east : ℚ
  north : ℚ
deriving DecidableEq, Repr

/-- A query bounding box as received from JavaScript callers: each of the
four coordinates may be any JavaScript number. -/
structure JSBbox where
  west : JSNum
  south : JSNum
  east : JSNum
  north : JSNum
deriving DecidableEq, Repr

/-- The inner helper of StacSearcher._validateBbox:
if (!Number.isFinite(val)) return defaultVal;
return Math.max(min, Math.min(max, val)). -/
def safeValue (val : JSNum) (defaultVal lo hi : ℚ) : ℚ :=
  match val with
  | .num q => max lo (min hi q)
  | _ => defaultVal

/-- StacSearcher._validateBbox: clamps each of the four query
coordinates independently, replacing a non-finite coordinate by its
permissive bound (west -180, south -90, east 180, north 90). -/
def validateBbox (b : JSBbox) : Bbox :=
  { west := safeValue b.west (-180) (-180) 180
    south := safeValue b.south (-90) (-90) 90
    east := safeValue b.east 180 (-180) 180
    north := safeValue b.north 90 (-90) 90 }

/-- A cached item index entry (interface CachedItem). -/
structure CachedItem where
  id : String
  title : Option String
  bbox : Bbox
  eptUrl : String
  pointCount : Option ℚ
deriving DecidableEq, Repr

/-- The intersection test of searchByExtent applied to an item box and
the clamped query box:
!(iEast < west || iWest > east || iNorth < south || iSouth > north). -/
def bboxIntersects (item q : Bbox) : Bool :=
  !(item.east < q.west || item.west > q.east ||
    item.north < q.south || item.south > q.north)

/-- The ranking key used by the comparator of searchByExtent: pointCount ?? 0. -/
def pointCountKey (it : CachedItem) : ℚ :=
  it.pointCount.getD 0

/-- The comparator order as a boolean relation: a may come before b
exactly when (b.pointCount ?? 0) - (a.pointCount ?? 0) <= 0.  The
JavaScript sort is stable (ES2019), so the result is the unique stable
descending reordering; it is modelled with the stable List.mergeSort. -/
def pointCountDescLe (a b : CachedItem) : Bool :=
  decide (pointCountKey b ≤ pointCountKey a)

/-- The properties object of a converted StacItem feature. -/
structure StacItemProps where
  title : Option String
  pcCount : Option ℚ
deriving DecidableEq, Repr

/-- A converted STAC feature as built by searchByExtent (the fields that
carry record data: id, polygon ring, bbox, properties, the data asset
href). -/
structure StacItem where
  id : String
  geometry : List (ℚ × ℚ)
  bbox : Bbox
  properties : StacItemProps
  assetHref : String
deriving DecidableEq, Repr

/-- The per-record feature conversion inside searchByExtent. -/
def toStacItem (it : CachedItem) : StacItem :=
  { id := it.id
    geometry := [(it.bbox.west, it.bbox.south), (it.bbox.east, it.bbox.south),
                 (it.bbox.east, it.bbox.north), (it.bbox.west, it.bbox.north),
                 (it.bbox.west, it.bbox.south)]
    bbox := it.bbox
    properties := { title := it.title, pcCount := it.pointCount }
    assetHref := it.eptUrl }

/-- The search response (type FeatureCollection with counters). -/
structure StacSearchResponse where
  features : List StacItem
  numberMatched : Nat
  numberReturned : Nat
deriving DecidableEq, Repr

/-- StacSearcher.searchByExtent on an already-loaded item index:
validate the bbox, filter by intersection, sort by point count
descending (stable), truncate to the limit, convert to features, and
report numberMatched / numberReturned. -/
def searchByExtent (items : List CachedItem) (bbox : JSBbox) (limit : Nat) :
    StacSearchResponse :=
  let q := validateBbox bbox
  let matching := items.filter (fun it => bboxIntersects it.bbox q)
  let sorted := (matching.mergeSort pointCountDescLe).take limit
  let features := sorted.map toStacItem
  { features := features
    numberMatched := matching.length
    numberReturned := features.length }

/-- Validity of a bounding box: west ≤ east and south ≤ north. -/
def Bbox.valid (b : Bbox) : Prop :=
  b.west ≤ b.east ∧ b.south ≤ b.north

instance (b : Bbox) : Decidable b.valid := by
  unfold Bbox.valid
  infer_instance

/-! ## Catalog cache (localStorage wrapper) -/

/-- A persisted cache entry (interface CacheEntry), with epoch-millisecond
times. -/
structure CacheEntry (T : Type) where
  data : T
  timestamp : ℤ
  expiresAt : ℤ
deriving DecidableEq, Repr

/-- The localStorage slot under the fixed cache key: either empty or one
parsed cache entry. -/
structure LocalStorage where
  entry : Option (CacheEntry (List CachedItem))
deriving DecidableEq, Repr

/-- StacSearcher._getFromCache at time now: absent slot gives null;
an entry past its expiresAt is removed and gives null; otherwise the
stored records are returned and the slot is untouched. -/
def getFromCache (now : ℤ) (s : LocalStorage) :
    Option (List CachedItem) × LocalStorage :=
  match s.entry with
  | none => (none, s)
  | some e =>
    if now > e.expiresAt then (none, { entry := none })
    else (some e.data, s)

/-- The raw localStorage.setItem call, which may throw (store
unavailable or full).  The boolean oracle selects the behaviour of
the store. -/
def setItemRaw (storeFails : Bool) (e : CacheEntry (List CachedItem))
    (s : LocalStorage) : Except String LocalStorage :=
  if storeFails then .error "QuotaExceededError" else .ok { entry := some e }

/-- The raw localStorage.removeItem call, which may throw. -/
def removeItemRaw (storeFails : Bool) (s : LocalStorage) :
    Except String LocalStorage :=
  if storeFails then .error "SecurityError" else .ok { entry := none }

/-- StacSearcher._saveToCache: build the entry with timestamp = now and
expiresAt = now + cacheDuration and try to store it; a store failure is
caught and swallowed (console.warn), leaving the slot as it was.  The
function is total for every store behaviour: no failure escapes. -/
def saveToCache (now cacheDuration : ℤ) (storeFails : Bool)
    (items : List CachedItem) (s : LocalStorage) : LocalStorage :=
  match setItemRaw storeFails
      { data := items, timestamp := now, expiresAt := now + cacheDuration } s with
  | .ok s2 => s2
  | .error _ => s

/-- The in-memory searcher state: the memoized _items field plus the
persistent localStorage slot. -/
structure SearcherState where
  items : Option (List CachedItem)
  storage : LocalStorage
deriving DecidableEq, Repr

/-- StacSearcher.clearCache: try to remove the stored entry (a store
failure is caught and ignored) and reset the memoized _items.  Total for
every store behaviour: never errors. -/
def clearCache (storeFails : Bool) (st : SearcherState) : SearcherState :=
  let storage :=
    match removeItemRaw storeFails st.storage with
    | .ok s2 => s2
    | .error _ => st.storage
  { items := none, storage := storage }

/-! ## Catalog rebuild -/

/-- A link of the root catalog document. -/
structure CatalogLink where
  rel : String
  href : String
deriving DecidableEq, Repr

/-- The root catalog document (the fields rebuildIndex reads). -/
structure StacCatalog where
  links : List CatalogLink
deriving DecidableEq, Repr

/-- The link filter of rebuildIndex: keep links whose rel equals item
or child. -/
def itemLinks (links : List CatalogLink) : List CatalogLink :=
  links.filter (fun l => l.rel == "item" || l.rel == "child")

/-- The fixed batch size of rebuildIndex. -/
def batchSize : Nat := 50

/-- The batched fetch loop of rebuildIndex.  The oracle fetch gives each
outcome of each link: some record on success, none when the fetch or
parse fails (the failure is logged and the item dropped).  Returns the
accumulated records and the list of progress-callback invocations
(min (i + batchSize) total, total), one per batch. -/
def rebuildLoop (fetch : CatalogLink → Option CachedItem) (total : Nat)
    (links : List CatalogLink) (i : Nat) :
    List CachedItem × List (Nat × Nat) :=
  match links with
  | [] => ([], [])
  | l :: rest0 =>
    let batch := (l :: rest0).take batchSize
    let got := (batch.map fetch).filterMap id
    let r := rebuildLoop fetch total ((l :: rest0).drop batchSize) (i + batchSize)
    (got ++ r.1, (min (i + batchSize) total, total) :: r.2)
termination_by links.length
decreasing_by
  simp only [List.length_drop, List.length_cons, batchSize]
  omega

/-- StacSearcher.rebuildIndex after a successful root-catalog fetch:
filter the item/child links, fetch them in batches of 50 reporting
progress after each batch, then write the result to the cache (a store
failure is swallowed) and memoize it in _items.  Returns the records,
the progress invocations, and the final searcher state. -/
def rebuildIndex (fetch : CatalogLink → Option CachedItem)
    (catalog : StacCatalog) (now cacheDuration : ℤ) (storeFails : Bool)
    (st : SearcherState) :
    (List CachedItem × List (Nat × Nat)) × SearcherState :=
  let ls := itemLinks catalog.links
  let r := rebuildLoop fetch ls.length ls 0
  (r, { items := some r.1
        storage := saveToCache now cacheDuration storeFails r.1 st.storage })

/-! ## Interaction state machine (NoaaLidarControl) -/

/-- The lifecycle events emitted by NoaaLidarControl. -/
inductive NEvent where
  | statechange
  | searchstart
  | searchcomplete
  | searcherror
  | drawstart
  | drawend
  | loadstart
  | loadcomplete
  | loaderror
  | unload
  | itemselect
  | itemdeselect
deriving DecidableEq, Repr

/-- The search-mode field of the control state. -/
inductive SearchMode where
  | noMode
  | draw
deriving DecidableEq, Repr

/-- A unified search item as held in searchResults (the field the state
machine reads). -/
structure UnifiedItem where
  id : String
deriving DecidableEq, Repr

/-- The handle returned by the external point-cloud loader
(loadPointCloud). -/
structure PointCloudInfo where
  id : String
deriving DecidableEq, Repr

/-- A loadedItems entry: the external load handle plus the display
name. -/
structure LoadedItemInfo where
  info : PointCloudInfo
  name : String
deriving DecidableEq, Repr

/-- JavaScript Map.set on an association list: replace in place when the
key is present, append otherwise. -/
def mapSet (k : String) (v : LoadedItemInfo) :
    List (String × LoadedItemInfo) → List (String × LoadedItemInfo)
  | [] => [(k, v)]
  | (k2, v2) :: rest =>
    if k2 = k then (k, v) :: rest else (k2, v2) :: mapSet k v rest

/-- JavaScript Map.get on an association list. -/
def mapGet (k : String) :
    List (String × LoadedItemInfo) → Option LoadedItemInfo
  | [] => none
  | (k2, v2) :: rest => if k2 = k then some v2 else mapGet k rest

/-- JavaScript Map.delete on an association list. -/
def mapDelete (k : String) :
    List (String × LoadedItemInfo) → List (String × LoadedItemInfo)
  | [] => []
  | (k2, v2) :: rest =>
    if k2 = k then rest else (k2, v2) :: mapDelete k rest

/-- The mutable control state owned by NoaaLidarControl (the fields the
verified operations touch). -/
structure ControlState where
  searchMode : SearchMode
  isDrawing : Bool
  drawnBbox : Option Bbox
  searchResults : List UnifiedItem
  selectedItems : List String
  isSearching : Bool
  searchError : Option String
  totalMatched : Option Nat
  loadedItems : List (String × LoadedItemInfo)
deriving DecidableEq, Repr

/-- NoaaLidarControl.searchByBbox, driven by the outcome of the
underlying searcher call (a success carries the unified items and the
numberMatched count; a failure carries the error message).  Every
setState emits a statechange event.  On failure the error message is
stored in searchError, isSearching is cleared, a searcherror event is
emitted, and the error is re-thrown (the Except.error result). -/
def searchByBbox (outcome : Except String (List UnifiedItem × Nat))
    (s : ControlState) :
    Except String (List UnifiedItem) × ControlState × List NEvent :=
  let s1 := { s with isSearching := true, searchError := none,
                     searchResults := [], selectedItems := [] }
  match outcome with
  | .ok (items, totalMatched) =>
    let s2 := { s1 with isSearching := false, searchResults := items,
                        totalMatched := some totalMatched }
    (.ok items, s2,
     [NEvent.statechange, NEvent.searchstart,
      NEvent.statechange, NEvent.searchcomplete])
  | .error msg =>
    let s2 := { s1 with isSearching := false, searchError := some msg }
    (.error msg, s2,
     [NEvent.statechange, NEvent.searchstart,
      NEvent.statechange, NEvent.searcherror])

/-- A longitude/latitude pair (e.lngLat of a map mouse event). -/
structure LngLat where
  lng : ℚ
  lat : ℚ
deriving DecidableEq, Repr

/-- The minimum-drag threshold of the mouseup handler. -/
def minDrag : ℚ := 1 / 10000

/-- NoaaLidarControl.stopDrawing (the state-changing tail: listeners and
map-interaction toggles are external): reset the draw mode via setState,
which emits a statechange event. -/
def stopDrawing (s : ControlState) : ControlState × List NEvent :=
  ({ s with searchMode := .noMode, isDrawing := false }, [NEvent.statechange])

/-- The mouseup handler installed by NoaaLidarControl.startDrawing.
Given the drag anchor (_drawStartPoint) and the release point, compute
the candidate box from the per-axis minima and maxima; commit it and
emit drawend only when some dimension exceeds the minimum-drag
threshold; then always clear the anchor and call stopDrawing. -/
def onMouseUp (startPoint : Option LngLat) (e : LngLat) (s : ControlState) :
    ControlState × List NEvent :=
  match startPoint with
  | none => stopDrawing s
  | some p =>
    let west := min p.lng e.lng
    let east := max p.lng e.lng
    let south := min p.lat e.lat
    let north := max p.lat e.lat
    if |east - west| > minDrag ∨ |north - south| > minDrag then
      let s1 := { s with drawnBbox := some { west := west, south := south,
                                             east := east, north := north },
                         isDrawing := false }
      let r := stopDrawing s1
      (r.1, [NEvent.statechange, NEvent.drawend] ++ r.2)
    else
      stopDrawing s

/-- NoaaLidarControl.loadItem, driven by the outcome of the URL
resolution (getEptUrl) and of the external loader (loadPointCloud), with
the display-name derivation (getItemShortName, an external utility)
passed in.  On either failure a loaderror event is emitted, the state is
left untouched, and the error is re-thrown; on success the loadedItems
map gains the entry under the item id via one setState. -/
def loadItem (resolveUrl : Except String String)
    (loadPointCloud : String → Except String PointCloudInfo)
    (shortName : String → String)
    (item : UnifiedItem) (s : ControlState) :
    Except String Unit × ControlState × List NEvent :=
  match resolveUrl with
  | .error msg => (.error msg, s, [NEvent.loadstart, NEvent.loaderror])
  | .ok url =>
    match loadPointCloud url with
    | .error msg => (.error msg, s, [NEvent.loadstart, NEvent.loaderror])
    | .ok pcInfo =>
      let info : LoadedItemInfo := { info := pcInfo, name := shortName item.id }
      let s2 := { s with loadedItems := mapSet item.id info s.loadedItems }
      (.ok (), s2,
       [NEvent.loadstart, NEvent.statechange, NEvent.loadcomplete])

/-- NoaaLidarControl.unloadItem: look the id up in loadedItems; when
present, release the external handle (the returned list of
unloadPointCloud calls), delete the entry via one setState and emit an
unload event; when absent, do nothing at all. -/
def unloadItem (itemId : String) (s : ControlState) :
    ControlState × List NEvent × List String :=
  match mapGet itemId s.loadedItems with
  | none => (s, [], [])
  | some info =>
    ({ s with loadedItems := mapDelete itemId s.loadedItems },
     [NEvent.statechange, NEvent.unload],
     [info.info.id])

/-- The initial control state set up by the NoaaLidarControl
constructor. -/
def initState : ControlState :=
  { searchMode := .noMode
    isDrawing := false
    drawnBbox := none
    searchResults := []
    selectedItems := []
    isSearching := false
    searchError := none
    totalMatched := none
    loadedItems := [] }

/-! ## Helper lemmas -/

/-- Unfolding of the intersection test into closed-interval overlap. -/
theorem bboxIntersects_eq_true_iff (A B : Bbox) :
    bboxIntersects A B = true ↔
      (B.west ≤ A.east ∧ A.west ≤ B.east ∧ B.south ≤ A.north ∧ A.south ≤ B.north) := by
  simp only [bboxIntersects, Bool.not_eq_eq_eq_not, Bool.not_true, Bool.or_eq_false_iff,
    decide_eq_false_iff_not, not_lt, gt_iff_lt]
  tauto

/-- Clamping an axis keeps the two clamped coordinates ordered whenever
the finite input coordinates were ordered; a non-finite coordinate gets
its permissive bound. -/
theorem safeValue_axis_ordered (a b : JSNum) (lo hi : ℚ) (hlohi : lo ≤ hi)
    (h : ∀ qa qb, a = .num qa → b = .num qb → qa ≤ qb) :
    safeValue a lo lo hi ≤ safeValue b hi lo hi := by
  cases a with
  | num qa =>
    cases b with
    | num qb =>
      have hq : qa ≤ qb := h qa qb rfl rfl
      exact max_le_max le_rfl (min_le_min le_rfl hq)
    | nan => exact max_le hlohi (min_le_left _ _)
    | inf => exact max_le hlohi (min_le_left _ _)
    | negInf => exact max_le hlohi (min_le_left _ _)
  | nan =>
    cases b with
    | num qb => exact le_max_left _ _
    | nan => exact hlohi
    | inf => exact hlohi
    | negInf => exact hlohi
  | inf =>
    cases b with
    | num qb => exact le_max_left _ _
    | nan => exact hlohi
    | inf => exact hlohi
    | negInf => exact hlohi
  | negInf =>
    cases b with
    | num qb => exact le_max_left _ _
    | nan => exact hlohi
    | inf => exact hlohi
    | negInf => exact hlohi

/-- mapSet stores the value under its key. -/
theorem mapGet_mapSet_self (k : String) (v : LoadedItemInfo)
    (l : List (String × LoadedItemInfo)) :
    mapGet k (mapSet k v l) = some v := by
  induction l with
  | nil => simp [mapSet, mapGet]
  | cons hd tl ih =>
    obtain ⟨k2, v2⟩ := hd
    by_cases hk : k2 = k
    · simp [mapSet, mapGet, hk]
    · simp [mapSet, mapGet, hk, ih]

/-- mapSet leaves every other key untouched. -/
theorem mapGet_mapSet_ne (k k2 : String) (v : LoadedItemInfo)
    (l : List (String × LoadedItemInfo)) (hne : k2 ≠ k) :
    mapGet k2 (mapSet k v l) = mapGet k2 l := by
  induction l with
  | nil => simp [mapSet, mapGet, Ne.symm hne]
  | cons hd tl ih =>
    obtain ⟨k3, v3⟩ := hd
    by_cases hk : k3 = k
    · subst hk
      simp only [mapSet, if_pos rfl, mapGet]
      rw [if_neg (Ne.symm hne), if_neg (Ne.symm hne)]
    · simp only [mapSet, if_neg hk, mapGet]
      by_cases hk2 : k3 = k2
      · rw [if_pos hk2, if_pos hk2]
      · rw [if_neg hk2, if_neg hk2, ih]

/-- The comparator order is transitive. -/
theorem pointCountDescLe_trans (a b c : CachedItem)
    (hab : pointCountDescLe a b = true) (hbc : pointCountDescLe b c = true) :
    pointCountDescLe a c = true := by
  simp only [pointCountDescLe, decide_eq_true_eq] at hab hbc ⊢
  exact le_trans hbc hab

/-- The comparator order is total. -/
theorem pointCountDescLe_total (a b : CachedItem) :
    (pointCountDescLe a b || pointCountDescLe b a) = true := by
  simp only [pointCountDescLe, Bool.or_eq_true, decide_eq_true_eq]
  exact le_total _ _

/-- The rebuild loop accumulates exactly the successful fetches, in link
order. -/
theorem rebuildLoop_fst (fetch : CatalogLink → Option CachedItem) (total : Nat)
    (links : List CatalogLink) (i : Nat) :
    (rebuildLoop fetch total links i).1 = links.filterMap fetch := by
  generalize hn : links.length = n
  induction n using Nat.strong_induction_on generalizing links i with
  | _ n ih =>
    cases links with
    | nil => simp [rebuildLoop]
    | cons l rest =>
      have hlt : ((l :: rest).drop batchSize).length < n := by
        subst hn
        simp only [List.length_drop, List.length_cons, batchSize]
        omega
      simp only [rebuildLoop]
      rw [ih _ hlt _ _ rfl, List.filterMap_map]
      conv_rhs => rw [← List.take_append_drop batchSize (l :: rest)]
      rw [List.filterMap_append]
      rfl

/-- Every link contributes to exactly one of the record list (fetch
succeeded) and the dropped set (fetch failed). -/
theorem length_filterMap_add_length_filter
    (fetch : CatalogLink → Option CachedItem) (links : List CatalogLink) :
    (links.filterMap fetch).length +
      (links.filter (fun l => (fetch l).isNone)).length = links.length := by
  induction links with
  | nil => simp
  | cons l rest ih =>
    cases h : fetch l with
    | none =>
      simp [List.filterMap_cons, List.filter_cons, h]
      omega
    | some it =>
      simp [List.filterMap_cons, List.filter_cons, h]
      omega

/-- A nonempty link list produces at least one progress invocation. -/
theorem rebuildLoop_snd_ne_nil (fetch : CatalogLink → Option CachedItem)
    (total : Nat) (links : List CatalogLink) (i : Nat) (hne : links ≠ []) :
    (rebuildLoop fetch total links i).2 ≠ [] := by
  cases links with
  | nil => exact absurd rfl hne
  | cons l rest => simp [rebuildLoop]

/-- When the loop starts with total = i + links.length (as rebuildIndex
does with i = 0), the last progress invocation reports
(total, total). -/
theorem rebuildLoop_snd_getLast (fetch : CatalogLink → Option CachedItem)
    (total : Nat) (links : List CatalogLink) (i : Nat)
    (hne : links ≠ []) (htot : total = i + links.length) :
    (rebuildLoop fetch total links i).2.getLast? = some (total, total) := by
  generalize hn : links.length = n
  induction n using Nat.strong_induction_on generalizing links i with
  | _ n ih =>
    cases links with
    | nil => exact absurd rfl hne
    | cons l rest =>
      simp only [rebuildLoop]
      by_cases hdrop : (l :: rest).drop batchSize = []
      · have hlen : (l :: rest).length ≤ batchSize := List.drop_eq_nil_iff.mp hdrop
        have hmin : min (i + batchSize) total = total :=
          Nat.min_eq_right (by omega)
        rw [hdrop]
        simp only [rebuildLoop, hmin, List.getLast?_singleton]
      · have hgt : batchSize < (l :: rest).length := by
          by_contra hle
          exact hdrop (List.drop_eq_nil_iff.mpr (by omega))
        have hlt : ((l :: rest).drop batchSize).length < n := by
          subst hn
          simp only [List.length_drop, List.length_cons, batchSize] at hgt ⊢
          omega
        have htot2 : total = (i + batchSize) + ((l :: rest).drop batchSize).length := by
          rw [List.length_drop]
          omega
        have hlast := ih _ hlt _ (i + batchSize) hdrop htot2 rfl
        obtain ⟨p0, ptl, hp⟩ :=
          List.exists_cons_of_ne_nil
            (rebuildLoop_snd_ne_nil fetch total ((l :: rest).drop batchSize)
              (i + batchSize) hdrop)
        rw [hp, List.getLast?_cons_cons, ← hp, hlast]

/-! ## Claims -/

/-- Claim C1: searchByExtent returns exactly the records whose bounding
boxes intersect the clamped query box — there is a ranked list that is a
permutation of the matching records, is sorted by pointCount descending
(absent pointCount counting as zero), is stable (every descending-order
subsequence of the matching records survives in order), and whose first
limit entries, converted to features, are the response — with
numberMatched the pre-truncation match count, numberReturned the
post-truncation length, numberReturned ≤ limit and
numberReturned ≤ numberMatched. -/
theorem searchByExtent_spec (items : List CachedItem) (bbox : JSBbox) (limit : Nat) :
    (∃ ranked : List CachedItem,
        ranked.Perm (items.filter (fun it => bboxIntersects it.bbox (validateBbox bbox))) ∧
        ranked.Pairwise (fun a b => pointCountKey b ≤ pointCountKey a) ∧
        (∀ l : List CachedItem,
            l.Pairwise (fun a b => pointCountKey b ≤ pointCountKey a) →
            l.Sublist (items.filter (fun it => bboxIntersects it.bbox (validateBbox bbox))) →
            l.Sublist ranked) ∧
        (searchByExtent items bbox limit).features = (ranked.take limit).map toStacItem) ∧
    (searchByExtent items bbox limit).numberMatched =
      (items.filter (fun it => bboxIntersects it.bbox (validateBbox bbox))).length ∧
    (searchByExtent items bbox limit).numberReturned =
      (searchByExtent items bbox limit).features.length ∧
    (searchByExtent items bbox limit).numberReturned ≤ limit ∧
    (searchByExtent items bbox limit).numberReturned ≤
      (searchByExtent items bbox limit).numberMatched := by
  have htrans : ∀ a b c : CachedItem, pointCountDescLe a b = true →
      pointCountDescLe b c = true → pointCountDescLe a c = true :=
    pointCountDescLe_trans
  have htotal : ∀ a b : CachedItem,
      (pointCountDescLe a b || pointCountDescLe b a) = true :=
    pointCountDescLe_total
  refine ⟨⟨(items.filter (fun it => bboxIntersects it.bbox (validateBbox bbox))).mergeSort
      pointCountDescLe, ?_, ?_, ?_, ?_⟩, rfl, rfl, ?_, ?_⟩
  · exact List.mergeSort_perm _ _
  · exact (List.sorted_mergeSort htrans htotal _).imp
      (fun h => by simpa [pointCountDescLe] using h)
  · intro l hp hs
    exact List.sublist_mergeSort htrans htotal
      (hp.imp (fun h => by simpa [pointCountDescLe] using h)) hs
  · rfl
  · simp only [searchByExtent, List.length_map, List.length_take]
    exact min_le_left _ _
  · simp only [searchByExtent, List.length_map, List.length_take,
      (List.mergeSort_perm _ pointCountDescLe).length_eq]
    exact min_le_right _ _

/-- Witness for claim C1 at a one-record index: the bound conjuncts
evaluated at a concrete record set, query box and limit. -/
theorem searchByExtent_spec_witness :
    (searchByExtent
        [{ id := "DigitalCoast_mission_13754", title := some "SC Coast",
           bbox := { west := -80, south := 32, east := -79, north := 33 },
           eptUrl := "geoid18/13754/ept.json", pointCount := some 1000000 }]
        { west := .num (-80.5), south := .num 32.5,
          east := .num (-79.5), north := .num 33 } 50).numberReturned ≤ 50 ∧
    (searchByExtent
        [{ id := "DigitalCoast_mission_13754", title := some "SC Coast",
           bbox := { west := -80, south := 32, east := -79, north := 33 },
           eptUrl := "geoid18/13754/ept.json", pointCount := some 1000000 }]
        { west := .num (-80.5), south := .num 32.5,
          east := .num (-79.5), north := .num 33 } 50).numberReturned ≤
      (searchByExtent
        [{ id := "DigitalCoast_mission_13754", title := some "SC Coast",
           bbox := { west := -80, south := 32, east := -79, north := 33 },
           eptUrl := "geoid18/13754/ept.json", pointCount := some 1000000 }]
        { west := .num (-80.5), south := .num 32.5,
          east := .num (-79.5), north := .num 33 } 50).numberMatched :=
  ⟨(searchByExtent_spec
      [{ id := "DigitalCoast_mission_13754", title := some "SC Coast",
         bbox := { west := -80, south := 32, east := -79, north := 33 },
         eptUrl := "geoid18/13754/ept.json", pointCount := some 1000000 }]
      { west := .num (-80.5), south := .num 32.5,
        east := .num (-79.5), north := .num 33 } 50).2.2.2.1,
   (searchByExtent_spec
      [{ id := "DigitalCoast_mission_13754", title := some "SC Coast",
         bbox := { west := -80, south := 32, east := -79, north := 33 },
         eptUrl := "geoid18/13754/ept.json", pointCount := some 1000000 }]
      { west := .num (-80.5), south := .num 32.5,
        east := .num (-79.5), north := .num 33 } 50).2.2.2.2⟩

/-- Claim C6: a rebuild over N item-or-child links of which K fail to
fetch or parse succeeds and returns exactly N - K records (each per-item
failure is dropped without aborting the batch or the rebuild), and when
the link list is nonempty the final progress invocation reports
(N, N). -/
theorem rebuildIndex_spec (fetch : CatalogLink → Option CachedItem)
    (catalog : StacCatalog) (now ttl : ℤ) (storeFails : Bool)
    (st : SearcherState) :
    (rebuildIndex fetch catalog now ttl storeFails st).1.1.length =
      (itemLinks catalog.links).length -
        ((itemLinks catalog.links).filter (fun l => (fetch l).isNone)).length ∧
    (itemLinks catalog.links ≠ [] →
      (rebuildIndex fetch catalog now ttl storeFails st).1.2.getLast? =
        some ((itemLinks catalog.links).length, (itemLinks catalog.links).length)) := by
  have h1 : (rebuildIndex fetch catalog now ttl storeFails st).1 =
      rebuildLoop fetch (itemLinks catalog.links).length (itemLinks catalog.links) 0 :=
    rfl
  rw [h1]
  constructor
  · rw [rebuildLoop_fst]
    have := length_filterMap_add_length_filter fetch (itemLinks catalog.links)
    omega
  · intro hne
    exact rebuildLoop_snd_getLast fetch _ _ 0 hne (by omega)

/-- Witness for claim C6 at a catalog with two item links, one child
link matched by the rel filter, and one unrelated link; the fetch of the
href "bad" fails: 3 links are followed, 1 is dropped, the rebuild
returns 2 records and the final progress call reports (3, 3). -/
theorem rebuildIndex_spec_witness :
    (rebuildIndex
        (fun l => if l.href = "bad" then none
          else some { id := l.href, title := none,
                      bbox := { west := 0, south := 0, east := 1, north := 1 },
                      eptUrl := "e", pointCount := none })
        { links := [{ rel := "item", href := "a" }, { rel := "item", href := "bad" },
                    { rel := "child", href := "c" }, { rel := "self", href := "s" }] }
        0 7 false { items := none, storage := { entry := none } }).1.1.length =
      (itemLinks [{ rel := "item", href := "a" }, { rel := "item", href := "bad" },
                  { rel := "child", href := "c" }, { rel := "self", href := "s" }]).length -
        ((itemLinks [{ rel := "item", href := "a" }, { rel := "item", href := "bad" },
                     { rel := "child", href := "c" }, { rel := "self", href := "s" }]).filter
          (fun l => (if l.href = "bad" then (none : Option CachedItem)
            else some { id := l.href, title := none,
                        bbox := { west := 0, south := 0, east := 1, north := 1 },
                        eptUrl := "e", pointCount := none }).isNone)).length ∧
    (rebuildIndex
        (fun l => if l.href = "bad" then none
          else some { id := l.href, title := none,
                      bbox := { west := 0, south := 0, east := 1, north := 1 },
                      eptUrl := "e", pointCount := none })
        { links := [{ rel := "item", href := "a" }, { rel := "item", href := "bad" },
                    { rel := "child", href := "c" }, { rel := "self", href := "s" }] }
        0 7 false { items := none, storage := { entry := none } }).1.2.getLast? =
      some ((itemLinks [{ rel := "item", href := "a" }, { rel := "item", href := "bad" },
                        { rel := "child", href := "c" }, { rel := "self", href := "s" }]).length,
            (itemLinks [{ rel := "item", href := "a" }, { rel := "item", href := "bad" },
                        { rel := "child", href := "c" }, { rel := "self", href := "s" }]).length) :=
  ⟨(rebuildIndex_spec
      (fun l => if l.href = "bad" then none
        else some { id := l.href, title := none,
                    bbox := { west := 0, south := 0, east := 1, north := 1 },
                    eptUrl := "e", pointCount := none })
      { links := [{ rel := "item", href := "a" }, { rel := "item", href := "bad" },
                  { rel := "child", href := "c" }, { rel := "self", href := "s" }] }
      0 7 false { items := none, storage := { entry := none } }).1,
   (rebuildIndex_spec
      (fun l => if l.href = "bad" then none
        else some { id := l.href, title := none,
                    bbox := { west := 0, south := 0, east := 1, north := 1 },
                    eptUrl := "e", pointCount := none })
      { links := [{ rel := "item", href := "a" }, { rel := "item", href := "bad" },
                  { rel := "child", href := "c" }, { rel := "self", href := "s" }] }
      0 7 false { items := none, storage := { entry := none } }).2
    (by simp [itemLinks])⟩

/-- Claim C2, counterexample: the query box [200, 0, -200, 10] has both
longitudes malformed (finite but outside [-180, 180]); _validateBbox
clamps each to the nearest bound independently, yielding the clamped box
[180, 0, -180, 10] with west = 180 > east = -180.  So clamping does not
make every box with malformed coordinates satisfy west ≤ east. -/
theorem validateBbox_order_counterexample :
    validateBbox { west := .num 200, south := .num 0,
                   east := .num (-200), north := .num 10 } =
      { west := 180, south := 0, east := -180, north := 10 } ∧
    ¬ ((180 : ℚ) ≤ (-180 : ℚ)) := by
  constructor
  · simp only [validateBbox, safeValue]
    norm_num
  · norm_num

/-- Claim C2 (amended): for every query box in which, on each axis, the
finite coordinates are in non-decreasing order — in particular whenever
every malformed coordinate is non-finite (NaN or ±Infinity) — the
clamped box returned by _validateBbox satisfies west ≤ east and
south ≤ north.  (A finite out-of-range coordinate is clamped to the
nearest bound, which can leave an inverted box inverted.) -/
theorem validateBbox_ordered (b : JSBbox)
    (hlon : ∀ qw qe, b.west = .num qw → b.east = .num qe → qw ≤ qe)
    (hlat : ∀ qs qn, b.south = .num qs → b.north = .num qn → qs ≤ qn) :
    (validateBbox b).west ≤ (validateBbox b).east ∧
    (validateBbox b).south ≤ (validateBbox b).north :=
  ⟨safeValue_axis_ordered b.west b.east (-180) 180 (by norm_num) hlon,
   safeValue_axis_ordered b.south b.north (-90) 90 (by norm_num) hlat⟩

/-- Witness for the amended claim C2 at the all-malformed box
[NaN, -Infinity, +Infinity, NaN]: the clamped box is ordered. -/
theorem validateBbox_ordered_witness :
    (validateBbox { west := .nan, south := .negInf,
                    east := .inf, north := .nan }).west ≤
      (validateBbox { west := .nan, south := .negInf,
                      east := .inf, north := .nan }).east ∧
    (validateBbox { west := .nan, south := .negInf,
                    east := .inf, north := .nan }).south ≤
      (validateBbox { west := .nan, south := .negInf,
                      east := .inf, north := .nan }).north :=
  validateBbox_ordered _
    (fun _ _ h _ => JSNum.noConfusion h)
    (fun _ _ h _ => JSNum.noConfusion h)

/-- Claim C3: the interval-overlap intersection test used by
searchByExtent is symmetric for all boxes, and every valid box (west ≤
east, south ≤ north) intersects itself. -/
theorem bboxIntersects_symm_refl (A B : Bbox) (hA : A.valid) :
    bboxIntersects A B = bboxIntersects B A ∧ bboxIntersects A A = true := by
  constructor
  · rw [Bool.eq_iff_iff, bboxIntersects_eq_true_iff, bboxIntersects_eq_true_iff]
    tauto
  · rw [bboxIntersects_eq_true_iff]
    exact ⟨hA.1, hA.1, hA.2, hA.2⟩

/-- Witness for claim C3 at two concrete valid boxes. -/
theorem bboxIntersects_symm_refl_witness :
    bboxIntersects { west := -80, south := 32, east := -79, north := 33 }
        { west := -80.5, south := 32.5, east := -79.5, north := 33 } =
      bboxIntersects { west := -80.5, south := 32.5, east := -79.5, north := 33 }
        { west := -80, south := 32, east := -79, north := 33 } ∧
    bboxIntersects { west := -80, south := 32, east := -79, north := 33 }
        { west := -80, south := 32, east := -79, north := 33 } = true :=
  bboxIntersects_symm_refl _ _ (by constructor <;> norm_num)

/-- Claim C4: a read of a stored cache entry returns the records exactly
when now ≤ expiresAt; an expired entry is removed by the read, so a
subsequent read at any time is also absent without an intervening
write. -/
theorem getFromCache_expiry (now now2 : ℤ) (e : CacheEntry (List CachedItem)) :
    (now ≤ e.expiresAt →
        getFromCache now { entry := some e } =
          (some e.data, { entry := some e })) ∧
    (now > e.expiresAt →
        (getFromCache now { entry := some e }).1 = none ∧
        (getFromCache now2 (getFromCache now { entry := some e }).2).1 = none) := by
  constructor
  · intro h
    simp [getFromCache, not_lt.mpr h]
  · intro h
    simp [getFromCache, h]

/-- Witness for claim C4: an entry expiring at 100 is returned at time
50 and is absent (and stays absent) after a read at time 150. -/
theorem getFromCache_expiry_witness :
    (getFromCache 50 { entry := some { data := [], timestamp := 0, expiresAt := 100 } } =
        (some [], { entry := some { data := [], timestamp := 0, expiresAt := 100 } })) ∧
    ((getFromCache 150 { entry := some { data := [], timestamp := 0, expiresAt := 100 } }).1 = none ∧
     (getFromCache 0 (getFromCache 150
        { entry := some { data := [], timestamp := 0, expiresAt := 100 } }).2).1 = none) :=
  ⟨(getFromCache_expiry 50 0 { data := [], timestamp := 0, expiresAt := 100 }).1 (by decide),
   (getFromCache_expiry 150 0 { data := [], timestamp := 0, expiresAt := 100 }).2 (by decide)⟩

/-- Claim C5: for every behaviour of the underlying persistent store,
the cache write is total (never throws): on store success it stores the
entry with timestamp = now and expiresAt = now + ttl, on store failure
it swallows the error leaving the slot as it was; and the cache clear is
total (never errors), always resets the memoized items, removes the
stored entry on store success, and swallows the error otherwise. -/
theorem saveToCache_clearCache_total (now ttl : ℤ) (storeFails : Bool)
    (items : List CachedItem) (s : LocalStorage) (st : SearcherState) :
    (storeFails = false →
        saveToCache now ttl storeFails items s =
          { entry := some { data := items, timestamp := now, expiresAt := now + ttl } }) ∧
    (storeFails = true → saveToCache now ttl storeFails items s = s) ∧
    (clearCache storeFails st).items = none ∧
    (storeFails = false → (clearCache storeFails st).storage = { entry := none }) ∧
    (storeFails = true → (clearCache storeFails st).storage = st.storage) := by
  cases storeFails <;>
    simp [saveToCache, setItemRaw, clearCache, removeItemRaw]

/-- Witness for claim C5 at a failing and at a succeeding store. -/
theorem saveToCache_clearCache_total_witness :
    saveToCache 10 7 false [] { entry := none } =
      { entry := some { data := [], timestamp := 10, expiresAt := 17 } } ∧
    saveToCache 10 7 true [] { entry := none } = { entry := none } ∧
    (clearCache true { items := some [], storage := { entry := none } }).items = none :=
  ⟨(saveToCache_clearCache_total 10 7 false [] { entry := none }
      { items := some [], storage := { entry := none } }).1 rfl,
   (saveToCache_clearCache_total 10 7 true [] { entry := none }
      { items := some [], storage := { entry := none } }).2.1 rfl,
   (saveToCache_clearCache_total 10 7 true [] { entry := none }
      { items := some [], storage := { entry := none } }).2.2.1⟩

/-- Claim C7, counterexample: a failing search invoked through
searchByBbox does escape to the caller as a rejection — after recording
the failure in state and emitting the searcherror event, the catch block
re-throws the error, so the result of the operation is the error itself
rather than a normal return. -/
theorem searchByBbox_rethrow_counterexample :
    (searchByBbox (.error "Failed to fetch NOAA STAC catalog: 500 Internal Server Error")
        initState).1 =
      .error "Failed to fetch NOAA STAC catalog: 500 Internal Server Error" := rfl

/-- Claim C7 (amended): for every failing search invoked through
searchByBbox, the state machine sets searchError to the failure
message, clears isSearching, and emits a search-error event; the error
is then re-thrown, so the rejection still propagates to the caller (the
conversion into state and an event happens in addition to, not instead
of, the rejection). -/
theorem searchByBbox_failure (msg : String) (s : ControlState) :
    (searchByBbox (.error msg) s).2.1.searchError = some msg ∧
    (searchByBbox (.error msg) s).2.1.isSearching = false ∧
    NEvent.searcherror ∈ (searchByBbox (.error msg) s).2.2 ∧
    (searchByBbox (.error msg) s).1 = .error msg := by
  refine ⟨rfl, rfl, ?_, rfl⟩
  simp [searchByBbox]

/-- Claim C8: on pointer release, a gesture whose box dimensions are
both at or below the minimum-drag threshold commits no box (drawnBbox is
left untouched and no drawend event fires) and drawing ends with
searchMode back to none and isDrawing cleared; a release with some
dimension above the threshold commits
drawnBbox = [min lng, min lat, max lng, max lat] computed from the
anchor and the release point and fires a drawend event, drawing likewise
ending idle. -/
theorem onMouseUp_threshold (p e : LngLat) (s : ControlState) :
    ((|max p.lng e.lng - min p.lng e.lng| ≤ minDrag ∧
      |max p.lat e.lat - min p.lat e.lat| ≤ minDrag) →
      ((onMouseUp (some p) e s).1.drawnBbox = s.drawnBbox ∧
       NEvent.drawend ∉ (onMouseUp (some p) e s).2 ∧
       (onMouseUp (some p) e s).1.searchMode = .noMode ∧
       (onMouseUp (some p) e s).1.isDrawing = false)) ∧
    ((|max p.lng e.lng - min p.lng e.lng| > minDrag ∨
      |max p.lat e.lat - min p.lat e.lat| > minDrag) →
      ((onMouseUp (some p) e s).1.drawnBbox =
         some { west := min p.lng e.lng, south := min p.lat e.lat,
                east := max p.lng e.lng, north := max p.lat e.lat } ∧
       NEvent.drawend ∈ (onMouseUp (some p) e s).2 ∧
       (onMouseUp (some p) e s).1.searchMode = .noMode ∧
       (onMouseUp (some p) e s).1.isDrawing = false)) := by
  constructor
  · intro h
    have hcond : ¬(|max p.lng e.lng - min p.lng e.lng| > minDrag ∨
        |max p.lat e.lat - min p.lat e.lat| > minDrag) := by
      push_neg
      exact h
    simp [onMouseUp, if_neg hcond, stopDrawing]
  · intro h
    simp [onMouseUp, if_pos h, stopDrawing]

/-- Witness for claim C8: a pure click at the origin commits nothing,
while a drag from (0, 0) to (1, 1) commits the box [0, 0, 1, 1] and
fires drawend. -/
theorem onMouseUp_threshold_witness :
    ((onMouseUp (some { lng := 0, lat := 0 }) { lng := 0, lat := 0 } initState).1.drawnBbox =
        initState.drawnBbox ∧
     NEvent.drawend ∉
        (onMouseUp (some { lng := 0, lat := 0 }) { lng := 0, lat := 0 } initState).2) ∧
    ((onMouseUp (some { lng := 0, lat := 0 }) { lng := 1, lat := 1 } initState).1.drawnBbox =
        some { west := min (0 : ℚ) 1, south := min (0 : ℚ) 1,
               east := max (0 : ℚ) 1, north := max (0 : ℚ) 1 } ∧
     NEvent.drawend ∈
        (onMouseUp (some { lng := 0, lat := 0 }) { lng := 1, lat := 1 } initState).2) := by
  have hsmall := (onMouseUp_threshold { lng := 0, lat := 0 } { lng := 0, lat := 0 }
    initState).1 (by constructor <;> norm_num [minDrag])
  have hbig := (onMouseUp_threshold { lng := 0, lat := 0 } { lng := 1, lat := 1 }
    initState).2 (by left; norm_num [minDrag])
  exact ⟨⟨hsmall.1, hsmall.2.1⟩, ⟨hbig.1, hbig.2.1⟩⟩

/-- Claim C9: loadItem is atomic with respect to loadedItems.  When the
URL resolution or the external point-cloud load fails, a loaderror event
is emitted and the state is exactly what it was before the call (no
half-added entry); on success the loadedItems map gains exactly the entry
under the item id, every other id reading as before. -/
theorem loadItem_atomic (resolveUrl : Except String String)
    (loadPC : String → Except String PointCloudInfo)
    (shortName : String → String) (item : UnifiedItem) (s : ControlState) :
    (∀ msg, (loadItem resolveUrl loadPC shortName item s).1 = .error msg →
        ((loadItem resolveUrl loadPC shortName item s).2.1 = s ∧
         NEvent.loaderror ∈ (loadItem resolveUrl loadPC shortName item s).2.2)) ∧
    (∀ url pc, resolveUrl = .ok url → loadPC url = .ok pc →
        ((loadItem resolveUrl loadPC shortName item s).2.1.loadedItems =
            mapSet item.id { info := pc, name := shortName item.id } s.loadedItems ∧
         mapGet item.id (loadItem resolveUrl loadPC shortName item s).2.1.loadedItems =
            some { info := pc, name := shortName item.id } ∧
         ∀ k, k ≠ item.id →
            mapGet k (loadItem resolveUrl loadPC shortName item s).2.1.loadedItems =
              mapGet k s.loadedItems)) := by
  constructor
  · intro msg hmsg
    cases hr : resolveUrl with
    | error m => simp [loadItem, hr]
    | ok url =>
      cases hl : loadPC url with
      | error m => simp [loadItem, hr, hl]
      | ok pc => simp [loadItem, hr, hl] at hmsg
  · intro url pc hr hl
    refine ⟨?_, ?_, ?_⟩
    · simp [loadItem, hr, hl]
    · simp [loadItem, hr, hl, mapGet_mapSet_self]
    · intro k hk
      simp [loadItem, hr, hl, mapGet_mapSet_ne _ _ _ _ hk]

/-- Witness for claim C9: a successful load from the initial state
stores the handle under the item id. -/
theorem loadItem_atomic_witness :
    mapGet "m13754"
        (loadItem (.ok "https://example.com/ept.json")
          (fun _ => .ok { id := "pc-1" }) (fun x => x)
          { id := "m13754" } initState).2.1.loadedItems =
      some { info := { id := "pc-1" }, name := "m13754" } :=
  ((loadItem_atomic (.ok "https://example.com/ept.json")
      (fun _ => .ok { id := "pc-1" }) (fun x => x)
      { id := "m13754" } initState).2
    "https://example.com/ept.json" { id := "pc-1" } rfl rfl).2.1

/-- Claim C10: unloading an id that is not in loadedItems is a complete
no-op: the state is unchanged, no event (unload or statechange) is
emitted, and the external loader is not invoked. -/
theorem unloadItem_absent_noop (itemId : String) (s : ControlState)
    (h : mapGet itemId s.loadedItems = none) :
    unloadItem itemId s = (s, [], []) := by
  simp [unloadItem, h]

/-- Witness for claim C10: unloading from the initial (empty) state. -/
theorem unloadItem_absent_noop_witness :
    unloadItem "DigitalCoast_mission_13754" initState =
      (initState, [], []) :=
  unloadItem_absent_noop "DigitalCoast_mission_13754" initState rfl

end NoaaLidar
